import Mathlib

/-!
Verification of the iamzero-python event batching and dispatch pipeline.

This file gives a shallow embedding of the batching/dispatch core of the
repository (src/iamzero/publisher.py, src/iamzero/event.py,
src/iamzero/identity.py) and proves or refutes the frozen claims about it.

Modelling conventions:
- Python values that flow through payloads and responses are modelled by
  the inductive type `Val` (strings, ints, lists, string-keyed dicts, None).
- Fallible Python code is modelled with `Except PyError`; an uncaught
  exception is the `.error` case.
- `datetime` objects are abstracted to their `isoformat()` string plus a
  flag recording whether `tzinfo` is present; the publisher only uses
  these two observations.
- Wall-clock readings (`time.time()`) are abstracted to integer-valued
  parameters; the code only subtracts and compares them.
- The two bounded thread-safe queues are modelled as lists plus an
  explicit capacity; a blocking `put` on a full queue is the `blocked`
  outcome (it waits, it does not raise), a `put_nowait` on a full queue
  is the `full` outcome (it raises queue.Full in the caller).
- Logging and statsd calls are no-ops and are omitted.
-/

namespace Iamzero

/-- Python values appearing in event payloads, request bodies and API
responses: None, strings, integers, lists and string-keyed dicts. -/
inductive Val : Type
  | null : Val
  | str : String → Val
  | int : Int → Val
  | list : List Val → Val
  | dict : List (String × Val) → Val

/-- Python exceptions that the publisher core can raise or catch. -/
inductive PyError : Type
  | attributeError (attr : String)
  | keyError (key : String)
  | typeError (msg : String)
  | noIdentity
  | transportError (msg : String)
deriving DecidableEq

/-- The `error` field of a response record holds either an exception
object or a plain string (the overflow path stores a string). -/
inductive RespError : Type
  | exc (e : PyError)
  | msg (s : String)
deriving DecidableEq

/-- A Python `datetime`, abstracted to the observations the publisher
makes of it: the result of `isoformat()` and whether `tzinfo` is set.
`datetime.datetime.utcnow()` (used by `Event.__init__`) yields a naive
datetime, i.e. `hasTz = false`. -/
structure PyDatetime : Type where
  iso : String
  hasTz : Bool
deriving DecidableEq

/-- `iamzero.event.Event`: the class defines exactly two attributes,
`data` (the payload dict) and `created_at` (a naive utcnow datetime). -/
structure Event : Type where
  data : Val
  created_at : PyDatetime

/-- Reading `ev.metadata` on an `Event`. The `Event` class defines only
`data` and `created_at`, and no code in the repository ever assigns a
`metadata` attribute, so the attribute lookup raises `AttributeError`. -/
def Event.getMetadata (_ : Event) : Except PyError Val :=
  .error (.attributeError "metadata")

/-- `iamzero.identity.Identity`: the resolved principal. All fields start
as None and are written once by the identity fetcher worker. -/
structure Identity : Type where
  user : Option String
  role : Option String
  account : Option String
  error : Option PyError

/-- `iamzero.identity.IdentityRequest`: credentials used for one identity
lookup. Constructed only after both keys were checked to be present. -/
structure IdentityRequest : Type where
  access_key : String
  secret_key : String
  token : Option String

/-- The `metadata` field of a response record: the `_enqueue_response`
paths store the `Event` object itself, while the overflow path in
`Publisher.send` stores the value of `ev.metadata`. -/
inductive RespMeta : Type
  | ofEvent (e : Event)
  | ofVal (v : Val)

/-- A record placed on the responses queue, with the five keys built by
`Publisher._enqueue_response` and by the overflow handler in
`Publisher.send`. -/
structure Response : Type where
  status_code : Int
  body : Val
  error : Option RespError
  duration : Int
  metadata : RespMeta

/-- Outcome of a `queue.Queue` put operation. -/
inductive PutResult (α : Type) : Type
  | ok (q : List α)
  | blocked
  | full

/-- Blocking `queue.Queue.put` on a queue with capacity `cap`: appends
when there is space, otherwise waits for space (never raises). -/
def queuePut {α : Type} (cap : Nat) (q : List α) (x : α) : PutResult α :=
  if q.length < cap then .ok (q ++ [x]) else .blocked

/-- Non-blocking `queue.Queue.put_nowait` on a queue with capacity `cap`:
appends when there is space, otherwise raises queue.Full. -/
def queuePutNowait {α : Type} (cap : Nat) (q : List α) (x : α) : PutResult α :=
  if q.length < cap then .ok (q ++ [x]) else .full

/-- Capacity of the pending events queue (`queue.Queue(maxsize=1000)`). -/
def pendingCapacity : Nat := 1000

/-- Capacity of the responses queue (`queue.Queue(maxsize=2000)`). -/
def responsesCapacity : Nat := 2000

/-- Capacity of the identity fetcher request queue (`queue.Queue(5)`). -/
def identityQueueCapacity : Nat := 5

/-- The queues owned by a `Publisher` that `Publisher.send` touches. -/
structure PubState : Type where
  pending : List Event
  responses : List Response

/-- Result of a call to `Publisher.send`. -/
inductive SendResult : Type
  | queued (st : PubState)
  | waiting
  | overflowHandled (st : PubState)

/-- `Publisher.send`: tries to put the event on the pending queue
(blocking when `block_on_send`, else `put_nowait`). On queue.Full it
builds a synthetic overflow response whose `metadata` is `ev.metadata`
and puts it on the responses queue (blocking when `block_on_response`,
else dropping it when that queue is full too). Any exception raised
inside the handler propagates to the caller. -/
def publisherSend (block_on_send block_on_response : Bool)
    (st : PubState) (ev : Event) : Except PyError SendResult :=
  match (if block_on_send then queuePut pendingCapacity st.pending ev
         else queuePutNowait pendingCapacity st.pending ev) with
  | .ok p => .ok (.queued ⟨p, st.responses⟩)
  | .blocked => .ok .waiting
  | .full =>
      match ev.getMetadata with
      | .error e => .error e
      | .ok m =>
          let response : Response :=
            ⟨0, .str "", some (.msg "event dropped; queue overflow"), 0, .ofVal m⟩
          if block_on_response then
            .ok (.overflowHandled ⟨st.pending, st.responses ++ [response]⟩)
          else
            match queuePutNowait responsesCapacity st.responses response with
            | .ok rs => .ok (.overflowHandled ⟨st.pending, rs⟩)
            | _ => .ok (.overflowHandled ⟨st.pending, st.responses⟩)

/-- Result of a call to `IdentityFetcher.fetch_identity`. -/
inductive FetchResult : Type
  | returned
  | enqueued (q : List IdentityRequest)
  | blockedOnFull
deriving Inhabited

/-- `IdentityFetcher.fetch_identity`: returns after logging when either
key is missing; otherwise performs a blocking `put` of an
`IdentityRequest` onto the capacity-5 request queue. -/
def fetch_identity (pending : List IdentityRequest) :
    Option String → Option String → Option String → FetchResult
  | Option.none, _, _ => .returned
  | _, Option.none, _ => .returned
  | some ak, some sk, tok =>
      match queuePut identityQueueCapacity pending ⟨ak, sk, tok⟩ with
      | .ok q => .enqueued q
      | _ => .blockedOnFull

/-- Python subscripting `body[key]` as `_enqueue_response` performs it:
on a dict, a missing key raises KeyError; on a string (the body `""`
passed by `_enqueue_errors`), string indices must be integers, so a
string key raises TypeError; other values are not subscriptable. -/
def Val.subscript : Val → String → Except PyError Val
  | .dict kvs, k =>
      match kvs.lookup k with
      | some v => .ok v
      | Option.none => .error (.keyError k)
  | .str _, _ => .error (.typeError "string indices must be integers")
  | _, _ => .error (.typeError "object is not subscriptable")

/-- Coercion of an optional string identity field into a JSON value. -/
def optToVal : Option String → Val
  | Option.none => .null
  | some s => .str s

/-- The `time` field serialized by `Publisher._send_batch`: the
`isoformat()` of `created_at`, with `"Z"` appended exactly when the
datetime has no `tzinfo`. -/
def eventTime (ev : Event) : String :=
  if ev.created_at.hasTz then ev.created_at.iso else ev.created_at.iso ++ "Z"

/-- One element of the payload list built by `Publisher._send_batch`:
the dict with keys `time`, `data` and `identity` (the resolved
user/role/account triple). -/
def serializeEvent (identity : Identity) (ev : Event) : Val :=
  .dict [("time", .str (eventTime ev)),
         ("data", ev.data),
         ("identity", .dict [("user", optToVal identity.user),
                             ("role", optToVal identity.role),
                             ("account", optToVal identity.account)])]

/-- The configuration and collaborators of a `Publisher` observed by
`_send_batch` and `_enqueue_response`: the `quiet` flag, the raw
`transport` config string, the shared `Identity` object, and the
`Transport.send` method (returning a status code and parsed body, or
raising). -/
structure Ctx : Type where
  quiet : Bool
  transport_type : String
  identity : Identity
  send : List Val → Except PyError (Int × Val)

/-- `Publisher._enqueue_response`: builds the five-key response record;
then, when the status code is 2xx, quiet mode is off and the transport
is http, reads `body["alertIDs"]` (logging the alert links), which can
raise and then prevents the record from being enqueued. The actual put
onto the bounded responses queue blocks or silently drops when full and
never raises, so it is modelled as succeeding with the built record. -/
def enqueueResponse (quiet : Bool) (ttype : String) (status_code : Int)
    (body : Val) (error : Option RespError) (duration : Int)
    (metadata : RespMeta) : Except PyError Response :=
  if (200 ≤ status_code ∧ status_code < 300) ∧ quiet = false ∧ ttype = "http" then
    match body.subscript "alertIDs" with
    | .error e => .error e
    | .ok _ => .ok ⟨status_code, body, error, duration, metadata⟩
  else .ok ⟨status_code, body, error, duration, metadata⟩

/-- `Publisher._enqueue_errors`: one failure response per event, each
with body `""` and the given exception, enqueued in order. An exception
raised by an individual `_enqueue_response` call aborts the loop and
propagates (the remaining events get no response). -/
def enqueueErrors (quiet : Bool) (ttype : String) (status_code : Int)
    (error : PyError) (duration : Int) :
    List Event → List Response × Option PyError
  | [] => ([], Option.none)
  | ev :: rest =>
      match enqueueResponse quiet ttype status_code (.str "")
          (some (.exc error)) duration (.ofEvent ev) with
      | .error e => ([], some e)
      | .ok r =>
          let tail := enqueueErrors quiet ttype status_code error duration rest
          (r :: tail.1, tail.2)

/-- Observable outcome of one `Publisher._send_batch` call: the
responses enqueued onto the responses queue in order, the payload passed
to `Transport.send` when it was invoked, and the exception escaping
`_send_batch` when one was raised outside the try block. -/
structure BatchResult : Type where
  responses : List Response
  sent : Option (List Val)
  raised : Option PyError

/-- `Publisher._send_batch`. With `role` still None, a
`NoIdentityException` is converted per event by `_enqueue_errors` with
status code 0 and no transport call is made. Otherwise the payload is
serialized and passed to `Transport.send`; on success a single
`_enqueue_response` call is made with the loop variable `ev`, which at
that point holds the last event of the payload loop (or is unbound for
an empty batch, raising NameError into the except block). Any exception
inside the try block is caught and handed to `_enqueue_errors` with the
current `status_code` (still 0 if `send` itself raised); an exception
raised by `_enqueue_errors` itself escapes. `duration` abstracts the
time-derived duration written into the response records. -/
def sendBatch (ctx : Ctx) (duration : Int) (events : List Event) :
    BatchResult :=
  if ctx.identity.role = Option.none then
    let out := enqueueErrors ctx.quiet ctx.transport_type 0 .noIdentity
        duration events
    ⟨out.1, Option.none, out.2⟩
  else
    let payload := events.map (serializeEvent ctx.identity)
    match ctx.send payload with
    | .error e =>
        let out := enqueueErrors ctx.quiet ctx.transport_type 0 e
            duration events
        ⟨out.1, some payload, out.2⟩
    | .ok (status_code, response) =>
        match events.getLast? with
        | Option.none => ⟨[], some payload, Option.none⟩
        | some ev =>
            match enqueueResponse ctx.quiet ctx.transport_type status_code
                response Option.none duration (.ofEvent ev) with
            | .ok r => ⟨[r], some payload, Option.none⟩
            | .error e =>
                let out := enqueueErrors ctx.quiet ctx.transport_type
                    status_code e duration events
                ⟨out.1, some payload, out.2⟩

/-- `Publisher._flush`: a no-op on an empty batch, otherwise
`_send_batch`. -/
def flush (ctx : Ctx) (duration : Int) (events : List Event) :
    BatchResult :=
  if events.isEmpty then ⟨[], Option.none, Option.none⟩
  else sendBatch ctx duration events

/-- Outcome of one `self.pending.get(timeout=self.send_frequency)` call
inside the `Publisher._sender` loop: a real event, the None shutdown
sentinel, or the queue.Empty timeout. -/
inductive Pull : Type
  | item (ev : Event)
  | sentinel
  | timeout

/-- The loop-local state of `Publisher._sender`: the accumulated batch
and the `last_flush` clock reading. -/
structure SenderState : Type where
  events : List Event
  last_flush : Int

/-- What one iteration of the `Publisher._sender` loop decided: the next
loop state, whether `_flush` was invoked, the batch passed to `_flush`
when it was, and whether the loop returned (sentinel). -/
structure StepResult : Type where
  state : SenderState
  flushCalled : Bool
  flushed : List Event
  terminated : Bool

/-- One iteration of the `Publisher._sender` control loop. On the
sentinel the current batch is flushed and the loop returns. On an event,
it is appended and a flush happens when the batch length exceeds
`max_batch_size` or `now - last_flush` exceeds `send_frequency`; after a
flush the batch resets and `last_flush` is set to `now`. On queue.Empty
the (possibly empty) batch is flushed and both reset. `now` stands for
the `time.time()` readings of this iteration. -/
def senderStep (max_batch_size : Nat) (send_frequency : Int)
    (s : SenderState) (pull : Pull) (now : Int) : StepResult :=
  match pull with
  | .sentinel => ⟨s, true, s.events, true⟩
  | .item ev =>
      let events := s.events ++ [ev]
      if events.length > max_batch_size ∨ now - s.last_flush > send_frequency
      then ⟨⟨[], now⟩, true, events, false⟩
      else ⟨⟨events, s.last_flush⟩, false, [], false⟩
  | .timeout => ⟨⟨[], now⟩, true, s.events, false⟩

/-- How a finite run of the `Publisher._sender` loop ended: it returned
via the sentinel, it died on an exception escaping `_flush`, or the
supplied pull trace was exhausted with the loop still running. -/
inductive RunEnd : Type
  | terminated
  | crashed
  | outOfPulls
deriving DecidableEq

/-- Observable outcome of a run of the `Publisher._sender` loop over a
pull trace: all responses enqueued in order, all payloads passed to
`Transport.send` in order, and how the run ended. -/
structure RunResult : Type where
  responses : List Response
  sent : List (List Val)
  ending : RunEnd

/-- Result of processing a single pull inside the loop: either the loop
ends here (sentinel reached, or `_flush` raised and killed the thread),
or it goes on with the responses and payloads this iteration emitted. -/
inductive StepOut : Type
  | halt (r : RunResult)
  | cont (responses : List Response) (sent : List (List Val)) (s : SenderState)

/-- One full iteration of `Publisher._sender` including the `_flush`
call it may make. -/
def senderIter (ctx : Ctx) (max_batch_size : Nat) (send_frequency : Int)
    (s : SenderState) (pull : Pull) (now : Int) : StepOut :=
  let step := senderStep max_batch_size send_frequency s pull now
  if step.flushCalled then
    let b := flush ctx now step.flushed
    match b.raised with
    | some _ => .halt ⟨b.responses, b.sent.toList, .crashed⟩
    | Option.none =>
        if step.terminated then .halt ⟨b.responses, b.sent.toList, .terminated⟩
        else .cont b.responses b.sent.toList step.state
  else .cont [] [] step.state

/-- A run of the `Publisher._sender` loop over a finite trace of pulls,
each paired with the clock reading of its iteration. -/
def senderRun (ctx : Ctx) (max_batch_size : Nat) (send_frequency : Int) :
    List (Pull × Int) → SenderState → RunResult
  | [], _ => ⟨[], [], .outOfPulls⟩
  | (pull, now) :: rest, s =>
      match senderIter ctx max_batch_size send_frequency s pull now with
      | .halt r => r
      | .cont rs sent next =>
          let r := senderRun ctx max_batch_size send_frequency rest next
          ⟨rs ++ r.responses, sent ++ r.sent, r.ending⟩

/-- Blocking `queue.Queue.put` with a timeout: appends as soon as space
becomes available; when the queue stays full through the whole timeout
window it raises queue.Full. The queue argument is the content of the
queue at the moment the put resolves (space check succeeded, or the
timeout elapsed). -/
def queuePutTimeout {α : Type} (cap : Nat) (q : List α) (x : α) :
    PutResult α :=
  if q.length < cap then .ok (q ++ [x]) else .full

/-- The terminal step of `Publisher.close` after the sender thread has
been joined: `self.responses.put(None, True, 10)` guarded by
`except queue.Full: pass`. The responses queue (capacity 2000) may still
hold undrained entries; entries put by the sender sit on it in order.
When space is available within the 10 second timeout the terminal None
marker is appended after them; when the queue stays full through the
timeout the queue.Full is swallowed, `close` completes anyway, and NO
terminal marker is ever emitted. `q` is the queue content when the put
resolves. -/
def closeResponses (q : List (Option Response)) : List (Option Response) :=
  match queuePutTimeout responsesCapacity q Option.none with
  | .ok q2 => q2
  | _ => q

/-! Concrete fixtures used by witnesses, counterexamples and
evaluations of the code at failing inputs. -/

/-- A sample event with a naive (utcnow) creation timestamp. -/
def evA : Event :=
  ⟨.dict [("action", .str "s3:GetObject")], ⟨"2021-06-01T10:00:00", false⟩⟩

/-- A second sample event with a naive creation timestamp. -/
def evB : Event :=
  ⟨.dict [("action", .str "s3:PutObject")], ⟨"2021-06-01T10:00:01", false⟩⟩

/-- A sample event whose creation timestamp carries timezone info. -/
def evC : Event :=
  ⟨.dict [("action", .str "sqs:SendMessage")],
   ⟨"2021-06-01T10:00:02+00:00", true⟩⟩

/-- A fully resolved identity. -/
def idResolved : Identity :=
  ⟨some "AIDAEXAMPLE", some "arn-aws-iam-role-dev", some "123456789012",
   Option.none⟩

/-- The identity before (or in absence of) resolution: all fields None. -/
def idUnresolved : Identity :=
  ⟨Option.none, Option.none, Option.none, Option.none⟩

/-! Helper lemmas about the response enqueueing paths. -/

/-- With status code 0 the alertIDs block of `_enqueue_response` is
skipped, so the call always succeeds with the built record. -/
theorem enqueueResponse_status_zero (quiet : Bool) (ttype : String)
    (body : Val) (error : Option RespError) (d : Int) (m : RespMeta) :
    enqueueResponse quiet ttype 0 body error d m =
      .ok ⟨0, body, error, d, m⟩ := by
  simp [enqueueResponse]

/-- With status code 0, `_enqueue_errors` enqueues exactly one failure
response per event, in order, and never raises. -/
theorem enqueueErrors_status_zero (quiet : Bool) (ttype : String)
    (e : PyError) (d : Int) : ∀ events : List Event,
    enqueueErrors quiet ttype 0 e d events =
      (events.map (fun ev => ⟨0, .str "", some (.exc e), d, .ofEvent ev⟩),
       Option.none)
  | [] => rfl
  | ev :: rest => by
      simp [enqueueErrors, enqueueResponse_status_zero,
        enqueueErrors_status_zero quiet ttype e d rest]

/-- With a 2xx status code, quiet off and the http transport,
`_enqueue_errors` crashes on its very first event: `_enqueue_response`
subscripts the string body `""` with `"alertIDs"`, raising TypeError, so
no response at all is enqueued. -/
theorem enqueueErrors_2xx_http (sc : Int) (e : PyError) (d : Int)
    (ev : Event) (events : List Event) (hsc : 200 ≤ sc ∧ sc < 300) :
    enqueueErrors false "http" sc e d (ev :: events) =
      ([], some (.typeError "string indices must be integers")) := by
  simp [enqueueErrors, enqueueResponse, hsc.1, hsc.2, Val.subscript]

/-! Claim theorems. -/

/-- C4: for every non-empty batch flushed while the identity role is
still unresolved, every event in the batch is converted to a failure
response with status code 0 and the NoIdentityException, and
Transport.send is not invoked at all (the `sent` field is None). -/
theorem flushRoleNone_perEventFailure (ctx : Ctx) (d : Int)
    (events : List Event) (hrole : ctx.identity.role = Option.none)
    (_hne : events ≠ []) :
    sendBatch ctx d events =
      ⟨events.map (fun ev =>
          ⟨0, .str "", some (.exc .noIdentity), d, .ofEvent ev⟩),
       Option.none, Option.none⟩ := by
  simp [sendBatch, hrole, enqueueErrors_status_zero]

/-- Fixture for the C4 witness: identity unresolved, transport unused. -/
def ctxNoRole : Ctx :=
  ⟨false, "http", idUnresolved, fun _ => .error (.transportError "unreachable")⟩

/-- Witness for C4 at a concrete one-event batch. -/
theorem flushRoleNone_perEventFailure_witness :
    sendBatch ctxNoRole 3 [evA] =
      ⟨[⟨0, .str "", some (.exc .noIdentity), 3, .ofEvent evA⟩],
       Option.none, Option.none⟩ :=
  flushRoleNone_perEventFailure ctxNoRole 3 [evA] rfl (by simp)

/-- Fixture for C1: resolved identity, http transport with quiet off,
and a transport call that succeeds with status 200 and a body carrying
alertIDs. -/
def ctxHappy : Ctx :=
  ⟨false, "http", idResolved,
   fun _ => .ok (200, .dict [("alertIDs", .list [.str "alert-1"])])⟩

/-- C1: evaluation of `_send_batch` at a successful two-event batch. The
code enqueues exactly ONE response for the whole batch, whose metadata
is the LAST event of the serialization loop (the stale loop variable
`ev` at the `_enqueue_response` call), not one response per event as the
claim states. -/
theorem successBatch_singleResponse_lastEvent :
    (sendBatch ctxHappy 7 [evA, evB]).responses =
      [⟨200, .dict [("alertIDs", .list [.str "alert-1"])], Option.none, 7,
        .ofEvent evB⟩]
    ∧ (sendBatch ctxHappy 7 [evA, evB]).responses.length = 1 :=
  ⟨rfl, rfl⟩

/-- A pending events queue at its full capacity of 1000. -/
def fullPending : List Event := List.replicate pendingCapacity evA

/-- C2: evaluation of `Publisher.send` at a non-blocking enqueue onto
the full pending queue. The queue.Full handler reads `ev.metadata`,
which the `Event` class does not define, so an AttributeError escapes
`Publisher.send` synchronously instead of every failure surfacing on the
response stream. -/
theorem sendOverflow_raisesAttributeError :
    publisherSend false false ⟨fullPending, []⟩ evB =
      .error (.attributeError "metadata") := by
  have hlen : ¬ fullPending.length < pendingCapacity := by simp [fullPending]
  simp [publisherSend, queuePutNowait, if_neg hlen, Event.getMetadata]

/-- C3: evaluation of `Publisher.send` at a non-blocking enqueue onto
the full pending queue with `block_on_response` set. The synthetic
"queue overflow" response is never built: constructing it evaluates
`ev.metadata`, raising AttributeError before anything is put on the
response stream (the event itself is indeed never added to the pending
queue). -/
theorem overflowResponse_neverBuilt :
    publisherSend false true ⟨fullPending, []⟩ evC =
      .error (.attributeError "metadata") := by
  have hlen : ¬ fullPending.length < pendingCapacity := by simp [fullPending]
  simp [publisherSend, queuePutNowait, if_neg hlen, Event.getMetadata]

/-- C6 (amended): for every non-empty batch whose `Transport.send` call
itself raises, every event in the batch receives its own individual
failure response, all with the same error and with status code 0 (the
code never has a status code available when `send` raises), and no
exception escapes. The original claim also covered exceptions from any
other step of the send attempt; the counterexample below shows that a
failure of the alertIDs lookup after a 2xx response leaves every event
without a response instead. -/
theorem transportRaise_perEventFailure (ctx : Ctx) (d : Int)
    (events : List Event) (e : PyError) (r : String)
    (hrole : ctx.identity.role = some r)
    (hsend : ctx.send (events.map (serializeEvent ctx.identity)) =
      .error e) :
    sendBatch ctx d events =
      ⟨events.map (fun ev => ⟨0, .str "", some (.exc e), d, .ofEvent ev⟩),
       some (events.map (serializeEvent ctx.identity)), Option.none⟩ := by
  have hn : ¬ ctx.identity.role = Option.none := by simp [hrole]
  simp [sendBatch, if_neg hn, hsend, enqueueErrors_status_zero]

/-- Fixture for the C6 witness: the transport raises a network error. -/
def ctxDown : Ctx :=
  ⟨false, "http", idResolved,
   fun _ => .error (.transportError "connection refused")⟩

/-- Witness for the amended C6 at a concrete one-event batch. -/
theorem transportRaise_perEventFailure_witness :
    sendBatch ctxDown 4 [evB] =
      ⟨[⟨0, .str "", some (.exc (.transportError "connection refused")), 4,
         .ofEvent evB⟩],
       some [serializeEvent idResolved evB], Option.none⟩ :=
  transportRaise_perEventFailure ctxDown 4 [evB]
    (.transportError "connection refused") "arn-aws-iam-role-dev" rfl rfl

/-- Fixture for the C6 counterexample: the transport succeeds with a 200
status but the body has no alertIDs key. -/
def ctxNoAlertIds : Ctx :=
  ⟨false, "http", idResolved, fun _ => .ok (200, .dict [])⟩

/-- C6 counterexample: a step of the send attempt other than
`Transport.send` raises (the alertIDs lookup on the 200 body), yet NOT
every event of the batch receives a failure response: no response is
enqueued at all and a TypeError escapes `_send_batch`, because the error
path re-runs the alertIDs lookup on the string body `""`. -/
theorem nonSendRaise_noPerEventResponses :
    (sendBatch ctxNoAlertIds 0 [evA, evB]).responses = []
    ∧ (sendBatch ctxNoAlertIds 0 [evA, evB]).raised =
        some (.typeError "string indices must be integers") :=
  ⟨rfl, rfl⟩

/-- C8: for every batch flushed with a resolved identity, the payload
handed to `Transport.send` is exactly the ordered map of the serializer
over the events, and each serialized record is the dict
`time / data / identity(user, role, account)` with `data` unchanged and
`time` carrying the `"Z"` suffix exactly when the creation timestamp has
no timezone info. -/
theorem serializedBatch_shape (ctx : Ctx) (d : Int) (events : List Event)
    (r : String) (ev : Event) (hrole : ctx.identity.role = some r) :
    (sendBatch ctx d events).sent =
      some (events.map (serializeEvent ctx.identity))
    ∧ serializeEvent ctx.identity ev =
        .dict [("time", .str (if ev.created_at.hasTz then ev.created_at.iso
                              else ev.created_at.iso ++ "Z")),
               ("data", ev.data),
               ("identity", .dict [("user", optToVal ctx.identity.user),
                                   ("role", .str r),
                                   ("account",
                                    optToVal ctx.identity.account)])] := by
  have hn : ¬ ctx.identity.role = Option.none := by simp [hrole]
  constructor
  · simp only [sendBatch, if_neg hn]
    cases hs : ctx.send (events.map (serializeEvent ctx.identity)) with
    | error e => simp
    | ok p =>
        obtain ⟨sc, body⟩ := p
        cases hl : events.getLast? with
        | none => simp
        | some last =>
            cases he : enqueueResponse ctx.quiet ctx.transport_type sc body
                Option.none d (.ofEvent last) with
            | error e => simp [he]
            | ok resp => simp [he]
  · simp [serializeEvent, eventTime, hrole, optToVal]

/-- Fixture for the C8 witness: resolved identity, successful send. -/
def ctxSer : Ctx :=
  ⟨false, "http", idResolved, fun _ => .ok (200, .dict [("alertIDs", .null)])⟩

/-- Witness for C8 at a two-event batch containing one naive and one
timezone-aware timestamp. -/
theorem serializedBatch_shape_witness :
    (sendBatch ctxSer 2 [evA, evC]).sent =
      some [serializeEvent idResolved evA, serializeEvent idResolved evC]
    ∧ serializeEvent idResolved evA =
        .dict [("time", .str "2021-06-01T10:00:00Z"),
               ("data", .dict [("action", .str "s3:GetObject")]),
               ("identity", .dict [("user", .str "AIDAEXAMPLE"),
                                   ("role", .str "arn-aws-iam-role-dev"),
                                   ("account", .str "123456789012")])] :=
  serializedBatch_shape ctxSer 2 [evA, evC] "arn-aws-iam-role-dev" evA rfl

/-- C10 (amended): with quiet off and the http transport, when
`Transport.send` returns a 2xx status but the alertIDs lookup on the
returned body raises, the lookup error is caught and the per-event
failure conversion is attempted with the 2xx status code, but its first
`_enqueue_response` call re-runs the alertIDs lookup on the string body
`""` and raises TypeError, so no event receives any response and the
TypeError escapes `_send_batch`. -/
theorem alertIdsLookup_crash (ctx : Ctx) (d : Int) (ev : Event)
    (events : List Event) (sc : Int) (body : Val) (r : String)
    (hq : ctx.quiet = false) (ht : ctx.transport_type = "http")
    (hrole : ctx.identity.role = some r) (hsc : 200 ≤ sc ∧ sc < 300)
    (hsend : ctx.send ((ev :: events).map (serializeEvent ctx.identity)) =
      .ok (sc, body))
    (e : PyError) (hlook : body.subscript "alertIDs" = .error e) :
    sendBatch ctx d (ev :: events) =
      ⟨[], some ((ev :: events).map (serializeEvent ctx.identity)),
       some (.typeError "string indices must be integers")⟩ := by
  have hn : ¬ ctx.identity.role = Option.none := by simp [hrole]
  have hl2 : (ev :: events).getLast?.isSome :=
    List.getLast?_isSome.mpr (by simp)
  obtain ⟨last, hl⟩ := Option.isSome_iff_exists.mp hl2
  have henq : enqueueResponse ctx.quiet ctx.transport_type sc body
      Option.none d (.ofEvent last) = .error e := by
    rw [hq, ht]
    simp [enqueueResponse, hsc.1, hsc.2, hlook]
  simp only [sendBatch, if_neg hn, hsend, hl, henq]
  rw [hq, ht, enqueueErrors_2xx_http sc e d ev events hsc]

/-- Fixture for the C10 counterexample: 201 status, body without an
alertIDs key. -/
def ctxMissingAlertIds : Ctx :=
  ⟨false, "http", idResolved, fun _ => .ok (201, .dict [("ok", .int 1)])⟩

/-- C10 counterexample: at a concrete one-event batch with a 201 status
and a body lacking alertIDs, the claim that every event receives a
failure response is false: the responses list is empty and a TypeError
escapes. -/
theorem alertIdsLookup_claimFalse :
    (sendBatch ctxMissingAlertIds 1 [evC]).responses = []
    ∧ (sendBatch ctxMissingAlertIds 1 [evC]).raised =
        some (.typeError "string indices must be integers") :=
  ⟨rfl, rfl⟩

/-- Fixture for the C10 witness: 204 status, body without alertIDs. -/
def ctxEmptyBody : Ctx :=
  ⟨false, "http", idResolved, fun _ => .ok (204, .dict [("deleted", .int 1)])⟩

/-- Witness for the amended C10 at a concrete two-event batch. -/
theorem alertIdsLookup_crash_witness :
    sendBatch ctxEmptyBody 9 [evA, evB] =
      ⟨[], some [serializeEvent idResolved evA, serializeEvent idResolved evB],
       some (.typeError "string indices must be integers")⟩ :=
  alertIdsLookup_crash ctxEmptyBody 9 evA [evB] 204
    (.dict [("deleted", .int 1)]) "arn-aws-iam-role-dev" rfl rfl rfl
    (by decide) rfl (.keyError "alertIDs") rfl

/-- C5 (amended): in the dispatcher control loop a `_flush` call is
triggered if and only if the pull timed out (queue empty), OR the
shutdown sentinel was pulled, OR an event was pulled and the accumulated
batch (including it) exceeds `max_batch_size` or the elapsed time since
the last flush exceeds `send_frequency`; and a flush of an empty batch
performs no send and emits no responses. The original claim omitted the
sentinel disjunct; the counterexample below shows a sentinel-triggered
flush with none of the other three conditions holding. -/
theorem flushTrigger_iff (mb : Nat) (sf : Int) (s : SenderState)
    (pull : Pull) (now : Int) :
    ((senderStep mb sf s pull now).flushCalled = true ↔
      pull = .timeout ∨ pull = .sentinel ∨
      (∃ ev, pull = .item ev ∧
        (s.events.length + 1 > mb ∨ now - s.last_flush > sf)))
    ∧ (∀ (ctx : Ctx) (d : Int),
        flush ctx d [] = ⟨[], Option.none, Option.none⟩) := by
  constructor
  · cases pull with
    | sentinel => simp [senderStep]
    | timeout => simp [senderStep]
    | item ev =>
        by_cases h :
            (s.events ++ [ev]).length > mb ∨ now - s.last_flush > sf
        · simp only [senderStep, if_pos h]
          simp only [List.length_append, List.length_singleton] at h
          simp [h]
        · simp only [senderStep, if_neg h]
          simp only [List.length_append, List.length_singleton] at h
          simp [h]
  · intro ctx d
    rfl

/-- C5 counterexample: pulling the shutdown sentinel with a one-event
batch, a max batch size of 100 and no elapsed time flushes the batch
(and the flushed batch is non-empty, so `_send_batch` runs), although
the batch size does not exceed the maximum, the elapsed time does not
exceed the send frequency, and the pull was not a timeout. -/
theorem flushTrigger_sentinel_counterexample :
    (senderStep 100 1 ⟨[evA], 0⟩ Pull.sentinel 0).flushCalled = true
    ∧ (senderStep 100 1 ⟨[evA], 0⟩ Pull.sentinel 0).flushed = [evA]
    ∧ ¬((1 : Nat) > 100 ∨ (0 : Int) - 0 > 1)
    ∧ Pull.sentinel ≠ Pull.timeout := by
  refine ⟨rfl, rfl, by decide, by intro h; cases h⟩

/-- C7 (amended): `fetch_identity` returns after logging, enqueueing
nothing, when the access key or the secret key is absent; otherwise it
performs a BLOCKING put of an IdentityRequest onto the capacity-5
request queue: the request is appended when the queue has space and the
call blocks (without dropping the request and without raising) when the
queue is full. The original claim said the full-queue put was
non-blocking with the request dropped; the counterexample below shows
the blocking outcome. -/
theorem fetchIdentity_behaviour (pending : List IdentityRequest)
    (ak sk tok : Option String) :
    ((ak = Option.none ∨ sk = Option.none) →
      fetch_identity pending ak sk tok = .returned)
    ∧ (∀ a s, ak = some a → sk = some s →
        fetch_identity pending ak sk tok =
          if pending.length < identityQueueCapacity
          then .enqueued (pending ++ [⟨a, s, tok⟩])
          else .blockedOnFull) := by
  constructor
  · rintro (rfl | rfl)
    · cases sk <;> cases tok <;> rfl
    · cases ak <;> cases tok <;> rfl
  · rintro a s rfl rfl
    simp only [fetch_identity, queuePut]
    by_cases h : pending.length < identityQueueCapacity
    · simp [if_pos h]
    · simp [if_neg h]

/-- Witness for the amended C7: on an empty queue with both keys
present, the request is enqueued. -/
theorem fetchIdentity_behaviour_witness :
    fetch_identity [] (some "AKID") (some "SECRET") Option.none =
      FetchResult.enqueued [⟨"AKID", "SECRET", Option.none⟩] := by
  simpa using (fetchIdentity_behaviour [] (some "AKID") (some "SECRET")
    Option.none).2 "AKID" "SECRET" rfl rfl

/-- An identity request queue at its full capacity of 5. -/
def idReqQueueFull : List IdentityRequest :=
  List.replicate identityQueueCapacity ⟨"AKIDEXISTING", "secretvalue", Option.none⟩

/-- C7 counterexample: with the capacity-5 request queue full and both
keys present, `fetch_identity` performs a blocking put and blocks until
space frees up; the request is neither dropped non-blockingly nor
enqueued. -/
theorem fetchIdentity_fullQueue_blocks :
    fetch_identity idReqQueueFull (some "AKIDNEW") (some "newsecret")
      Option.none = FetchResult.blockedOnFull := by
  rfl

/-- Processing the shutdown sentinel always ends the loop: the current
batch is flushed and the iteration halts (normally, or crashed when the
flush raised). -/
theorem senderIter_sentinel (ctx : Ctx) (mb : Nat) (sf : Int)
    (s : SenderState) (t : Int) :
    senderIter ctx mb sf s .sentinel t =
      .halt ⟨(flush ctx t s.events).responses,
             (flush ctx t s.events).sent.toList,
             if (flush ctx t s.events).raised.isSome then .crashed
             else .terminated⟩ := by
  simp only [senderIter, senderStep]
  cases h : (flush ctx t s.events).raised <;> simp [h]

/-- C9 (amended): pulling the shutdown sentinel flushes the accumulated
batch synchronously and terminates the loop, so a trace is insensitive
to anything after its first sentinel (no further sends or responses
ever occur). After the sender thread is joined, `close` puts the
terminal None marker on the responses queue with a 10 second timeout:
when the queue has space within the timeout, the stream ends with the
single terminal marker placed after every previously enqueued response;
but when the responses queue remains full through the whole timeout,
the queue.Full is swallowed and `close` completes WITHOUT emitting any
terminal marker. The original claim asserted the terminal marker
unconditionally; the counterexample below shows the full-queue run. -/
theorem sentinelShutdown_closeMarker (ctx : Ctx) (mb : Nat) (sf : Int) :
    (∀ (pre post : List (Pull × Int)) (t : Int) (s : SenderState),
        senderRun ctx mb sf (pre ++ (Pull.sentinel, t) :: post) s =
          senderRun ctx mb sf (pre ++ [(Pull.sentinel, t)]) s)
    ∧ (∀ (rest : List (Pull × Int)) (t : Int) (s : SenderState),
        senderRun ctx mb sf ((Pull.sentinel, t) :: rest) s =
          ⟨(flush ctx t s.events).responses,
           (flush ctx t s.events).sent.toList,
           if (flush ctx t s.events).raised.isSome then .crashed
           else .terminated⟩)
    ∧ (∀ q : List (Option Response),
        (q.length < responsesCapacity →
          closeResponses q = q ++ [Option.none]
          ∧ (closeResponses q).getLast? = some Option.none
          ∧ (closeResponses q).dropLast = q)
        ∧ (¬ q.length < responsesCapacity → closeResponses q = q)) := by
  have hsent : ∀ (rest : List (Pull × Int)) (t : Int) (s : SenderState),
      senderRun ctx mb sf ((Pull.sentinel, t) :: rest) s =
        ⟨(flush ctx t s.events).responses,
         (flush ctx t s.events).sent.toList,
         if (flush ctx t s.events).raised.isSome then .crashed
         else .terminated⟩ := by
    intro rest t s
    simp [senderRun, senderIter_sentinel ctx mb sf s t]
  refine ⟨?_, hsent, ?_⟩
  · intro pre post t s
    induction pre generalizing s with
    | nil => simp only [List.nil_append, hsent]
    | cons hd tl ih =>
        obtain ⟨p, n⟩ := hd
        simp only [List.cons_append, senderRun]
        cases h : senderIter ctx mb sf s p n with
        | halt r => simp
        | cont rs sent next => simp [ih next]
  · intro q
    constructor
    · intro h
      have he : closeResponses q = q ++ [Option.none] := by
        simp [closeResponses, queuePutTimeout, if_pos h]
      refine ⟨he, ?_, ?_⟩
      · rw [he]; simp
      · rw [he]; simp [List.dropLast_concat]
    · intro h
      simp [closeResponses, queuePutTimeout, if_neg h]

/-- A failure response record used to populate the responses queue. -/
def respA : Response := ⟨0, .str "", Option.none, 0, .ofEvent evA⟩

/-- A responses queue sitting at its full capacity of 2000, none of its
entries being a terminal marker (the consumer never drained it). -/
def fullResponses : List (Option Response) :=
  List.replicate responsesCapacity (some respA)

/-- C9 counterexample: with the responses queue full through the whole
10 second timeout, the terminal put raises queue.Full, the exception is
swallowed and `close` completes with the stream unchanged: it contains
no terminal end-of-stream marker at all, refuting the claim that the
response stream yields one after `close()` completes. -/
theorem closeFullQueue_noTerminalMarker :
    closeResponses fullResponses = fullResponses
    ∧ Option.none ∉ fullResponses := by
  have hlen : ¬ fullResponses.length < responsesCapacity := by
    simp [fullResponses]
  constructor
  · simp [closeResponses, queuePutTimeout, if_neg hlen]
  · simp [fullResponses, List.mem_replicate]

/-- Witness for the amended C9: on a responses queue holding one
undrained response, `close` appends the single terminal marker after
it. -/
theorem sentinelShutdown_closeMarker_witness :
    closeResponses [some respA] = [some respA] ++ [Option.none]
    ∧ (closeResponses [some respA]).getLast? = some Option.none
    ∧ (closeResponses [some respA]).dropLast = [some respA] :=
  ((sentinelShutdown_closeMarker ctxDown 100 1).2.2 [some respA]).1
    (by norm_num [responsesCapacity])

end Iamzero
